import Mathlib

/-!
Verification of the APA-7th-to-RIS converter (streamlit_app.py).

Python strings are modelled as lists of characters (ASCII-level model of
str.strip, str.lower, substring membership, str.splitlines and the three
regular expressions used by the program).
-/

set_option maxHeartbeats 1000000

abbrev PStr := List Char

/-- Whitespace characters recognised by str.strip and by the regex class \s
(ASCII model). -/
def isPySpace (c : Char) : Bool :=
  c = ' ' || c = '\t' || c = '\n' || c = '\r' || c = '\x0b' || c = '\x0c'

/-- str.lstrip with no argument. -/
def lstrip (s : PStr) : PStr := s.dropWhile isPySpace

/-- str.rstrip with no argument. -/
def rstrip (s : PStr) : PStr := (s.reverse.dropWhile isPySpace).reverse

/-- str.strip with no argument. -/
def pyStrip (s : PStr) : PStr := rstrip (lstrip s)

/-- str.lower (ASCII model). -/
def pyLower (s : PStr) : PStr := s.map Char.toLower

/-- Does the second list start with the first one? -/
def startsWithL : PStr → PStr → Bool
  | [], _ => true
  | _ :: _, [] => false
  | a :: xs, b :: ys => a = b && startsWithL xs ys

/-- Python substring membership: needle in hay. -/
def containsSub (needle : PStr) : PStr → Bool
  | [] => startsWithL needle []
  | c :: rest => startsWithL needle (c :: rest) || containsSub needle rest

/-- Line-break characters recognised by str.splitlines. -/
def isLineBreakChar (c : Char) : Bool :=
  c = '\n' || c = '\r' || c = '\x0b' || c = '\x0c' ||
  c = '\x1c' || c = '\x1d' || c = '\x1e' || c = '\x85' ||
  c = '\u2028' || c = '\u2029'

def splitlinesAux : PStr → PStr → List PStr
  | [], acc => if acc = [] then [] else [acc.reverse]
  | '\r' :: '\n' :: rest, acc => acc.reverse :: splitlinesAux rest []
  | c :: rest, acc =>
    if isLineBreakChar c then acc.reverse :: splitlinesAux rest []
    else splitlinesAux rest (c :: acc)

/-- str.splitlines. -/
def splitlines (s : PStr) : List PStr := splitlinesAux s []

/-- Word characters for the regex metacharacter \b (ASCII model). -/
def isWordChar (c : Char) : Bool := c.isAlphanum || c = '_'

/-- Does the regex \d+\(\d+\)\s*,\s*\d match starting exactly at the head of
the list?  (Maximal-munch on each repetition is equivalent to the
backtracking semantics here, because a digit run followed by a non-digit
leaves no alternative split.) -/
def volMatchAt (s : PStr) : Bool :=
  let d1 := s.takeWhile Char.isDigit
  let r1 := s.dropWhile Char.isDigit
  if d1 = [] then false else
  match r1 with
  | '(' :: r2 =>
    let d2 := r2.takeWhile Char.isDigit
    let r3 := r2.dropWhile Char.isDigit
    if d2 = [] then false else
    match r3 with
    | ')' :: r4 =>
      match (r4.dropWhile isPySpace) with
      | ',' :: r6 =>
        match (r6.dropWhile isPySpace) with
        | c :: _ => c.isDigit
        | [] => false
      | _ => false
    | _ => false
  | _ => false

def volSearchAux : Bool → PStr → Bool
  | _, [] => false
  | prevNotWord, c :: rest =>
    (prevNotWord && volMatchAt (c :: rest)) || volSearchAux (!isWordChar c) rest

/-- re.search of the pattern \b\d+\(\d+\)\s*,\s*\d (as a Boolean: does a
match exist anywhere in the string). -/
def volSearch (s : PStr) : Bool := volSearchAux true s

/-- Modelled from the spec wording of the volume(issue), page pattern:
one or more digits, a left parenthesis, one or more digits, a right
parenthesis, optional whitespace, a comma, optional whitespace, a digit —
with no word-boundary requirement before the first digit run. -/
def volumePattern_spec : PStr → Bool
  | [] => false
  | c :: rest => volMatchAt (c :: rest) || volumePattern_spec rest

/-- If the string starts with a parenthesised 4-digit year, return the four
digits and the rest after the closing parenthesis. -/
def yearAt : PStr → Option (PStr × PStr)
  | '(' :: a :: b :: c :: d :: ')' :: rest =>
    if a.isDigit && b.isDigit && c.isDigit && d.isDigit then
      some ([a, b, c, d], rest)
    else none
  | _ => none

/-- re.search of the pattern \((\d{4})\): leftmost match, returned as
(text before the match, the four digits, text after the match). -/
def findYear : PStr → Option (PStr × PStr × PStr)
  | [] => none
  | c :: rest =>
    match yearAt (c :: rest) with
    | some (y, after) => some ([], y, after)
    | none =>
      match findYear rest with
      | some (pre, y, after) => some (c :: pre, y, after)
      | none => none

/-- If the regex https?://\S+ matches starting exactly at the head of the
list, return the matched token. -/
def urlAt (s : PStr) : Option PStr :=
  match s with
  | 'h' :: 't' :: 't' :: 'p' :: rest =>
    (match rest with
     | 's' :: ':' :: '/' :: '/' :: r =>
       let tok := r.takeWhile (fun c => !isPySpace c)
       if tok = [] then none
       else some (['h', 't', 't', 'p', 's', ':', '/', '/'] ++ tok)
     | ':' :: '/' :: '/' :: r =>
       let tok := r.takeWhile (fun c => !isPySpace c)
       if tok = [] then none
       else some (['h', 't', 't', 'p', ':', '/', '/'] ++ tok)
     | _ => none)
  | _ => none

/-- re.search of the pattern (https?://\S+): leftmost match. -/
def urlSearch : PStr → Option PStr
  | [] => none
  | c :: rest =>
    match urlAt (c :: rest) with
    | some u => some u
    | none => urlSearch rest

def institution_keywords : List PStr :=
  ["department".data, "commission".data, "council".data, "university".data,
   "unicef".data, "ministry".data, "office".data, "organisation".data,
   "organization".data, "government".data, "authority".data]

def report_markers : List PStr :=
  ["[press release]".data, "[advocacy".data, "submission to the".data,
   "briefing]".data, "technical report".data, "working paper".data,
   "policy paper".data]

def instAny (low : PStr) : Bool :=
  institution_keywords.any (fun kw => containsSub kw low)

def markerAny (low : PStr) : Bool :=
  report_markers.any (fun m => containsSub m low)

/-- detect_reference_type from streamlit_app.py. -/
def detect_reference_type (original after_year : PStr) : PStr :=
  let low_original := pyLower original
  let _low_after := pyLower after_year
  if containsSub "doi.org".data low_original || containsSub "doi:".data low_original then
    "JOUR".data
  else if volSearch original then
    "JOUR".data
  else if instAny low_original && markerAny low_original then
    "RPRT".data
  else if instAny low_original && !containsSub "doi".data low_original then
    "RPRT".data
  else
    "ELEC".data

/-- The Parsed Record: one optional value per RIS field of the Python dict. -/
structure Record where
  TY : Option PStr
  AU : Option PStr
  PY : Option PStr
  TI : Option PStr
  UR : Option PStr
  N1 : Option PStr
deriving DecidableEq

/-- parse_apa_reference from streamlit_app.py; none models the empty dict
returned for a blank line. -/
def parse_apa_reference (line : PStr) : Option Record :=
  let original := pyStrip line
  if original = [] then none
  else
    match findYear original with
    | none =>
      some { TY := some "GEN".data, AU := none, PY := none,
             TI := none, UR := none, N1 := some original }
    | some (before, year, afterRaw) =>
      let authors0 := pyStrip before
      let authors1 :=
        if authors0.getLast? = some '.' then pyStrip authors0.dropLast else authors0
      let authors := authors1 ++ [',']
      let au := if authors = [] then none else some authors
      let after_year0 := lstrip afterRaw
      let after_year :=
        match after_year0 with
        | '.' :: r => lstrip r
        | _ => after_year0
      let title :=
        if after_year.any (fun c => c = '.') then
          pyStrip (after_year.takeWhile (fun c => c ≠ '.'))
        else pyStrip after_year
      let ti := if title = [] then none else some title
      let ty := detect_reference_type original after_year
      let ur := urlSearch original
      some { TY := some ty, AU := au, PY := some year,
             TI := ti, UR := ur, N1 := some original }

/-- Python truthiness of an optional string field. -/
def pyTruthy : Option PStr → Bool
  | none => false
  | some s => !s.isEmpty

/-- Python expression: value or default (used for record.get with or). -/
def pyOr (o : Option PStr) (d : PStr) : PStr :=
  match o with
  | none => d
  | some s => if s.isEmpty then d else s

/-- One conditional append of record_to_ris: if the field is truthy, the
tagged line is appended, otherwise nothing is. -/
def optLine (tag : PStr) (o : Option PStr) : List PStr :=
  if pyTruthy o then [tag ++ o.getD []] else []

/-- The list of tagged lines built by record_to_ris before joining. -/
def risLines (r : Record) : List PStr :=
  ["TY  - ".data ++ pyOr r.TY "GEN".data]
  ++ optLine "AU  - ".data r.AU
  ++ optLine "TI  - ".data r.TI
  ++ optLine "PY  - ".data r.PY
  ++ optLine "UR  - ".data r.UR
  ++ optLine "N1  - ".data r.N1
  ++ ["ER  - ".data]

/-- record_to_ris from streamlit_app.py. -/
def record_to_ris (r : Record) : PStr :=
  List.intercalate ['\n'] (risLines r) ++ ['\n', '\n']

/-- The loop body of references_text_to_ris: strip the line, skip it when
blank, otherwise parse it and serialize the record (skipping an empty
record). -/
def lineEntry (line : PStr) : Option PStr :=
  let l := pyStrip line
  if l = [] then none
  else
    match parse_apa_reference l with
    | none => none
    | some r => some (record_to_ris r)

/-- references_text_to_ris from streamlit_app.py. -/
def references_text_to_ris (text : PStr) : PStr :=
  ((splitlines text).filterMap lineEntry).flatten

/-- Author-segment computation as the (amended) spec words it: the text
strictly before the year match, trimmed; one trailing period stripped and
the result trimmed again; a comma appended. -/
def authorsSpec (before : PStr) : PStr :=
  let a0 := pyStrip before
  let a1 := if a0.getLast? = some '.' then pyStrip a0.dropLast else a0
  a1 ++ [',']

/-- The entry produced for one line when no year is found anywhere: a
Generic record carrying only the trimmed raw line (blank lines produce
nothing). -/
def genericEntry (l : PStr) : Option PStr :=
  if pyStrip l = [] then none
  else
    some (record_to_ris { TY := some "GEN".data, AU := none, PY := none,
                          TI := none, UR := none, N1 := some (pyStrip l) })

/-- A concrete record used to instantiate serializer statements. -/
def sampleRecord : Record :=
  { TY := some "JOUR".data, AU := some "A,".data, PY := some "2020".data,
    TI := none, UR := none, N1 := some "x".data }

/-! ### Lemmas about the string primitives -/

lemma length_dropWhile_le (p : Char → Bool) (l : PStr) :
    (l.dropWhile p).length ≤ l.length := by
  induction l with
  | nil => simp
  | cons a t ih =>
    rw [List.dropWhile_cons]
    split
    · exact Nat.le_succ_of_le ih
    · exact Nat.le_refl _

lemma dropWhile_idem (p : Char → Bool) (l : PStr) :
    (l.dropWhile p).dropWhile p = l.dropWhile p := by
  induction l with
  | nil => simp
  | cons a t ih =>
    rw [List.dropWhile_cons]
    split
    · exact ih
    · rw [List.dropWhile_cons_of_neg (by assumption)]

lemma head_false_of_dropWhile_self {p : Char → Bool} {a : Char} {u : PStr}
    (h : (a :: u).dropWhile p = a :: u) : p a = false := by
  by_cases hp : p a
  · rw [List.dropWhile_cons_of_pos hp] at h
    have hle := length_dropWhile_le p u
    rw [h] at hle
    simp at hle
  · simpa using hp

lemma rstrip_idem (s : PStr) : rstrip (rstrip s) = rstrip s := by
  unfold rstrip
  rw [List.reverse_reverse, dropWhile_idem]

lemma lstrip_rstrip_self {t : PStr} (ht : lstrip t = t) :
    lstrip (rstrip t) = rstrip t := by
  obtain ⟨X, hpre⟩ : ∃ X, rstrip t ++ X = t := by
    refine ⟨(t.reverse.takeWhile isPySpace).reverse, ?_⟩
    unfold rstrip
    rw [← List.reverse_append, List.takeWhile_append_dropWhile, List.reverse_reverse]
  cases hr : rstrip t with
  | nil => simp [lstrip]
  | cons a u =>
    have hteq : t = a :: (u ++ X) := by
      rw [← hpre, hr]
      simp
    have hpa : isPySpace a = false := by
      apply head_false_of_dropWhile_self (p := isPySpace)
      have ht2 := ht
      unfold lstrip at ht2
      rw [hteq] at ht2
      exact ht2
    unfold lstrip
    exact List.dropWhile_cons_of_neg (by simp [hpa])

lemma pyStrip_idem (s : PStr) : pyStrip (pyStrip s) = pyStrip s := by
  unfold pyStrip
  have h1 : lstrip (lstrip s) = lstrip s := dropWhile_idem _ _
  have h2 : lstrip (rstrip (lstrip s)) = rstrip (lstrip s) := lstrip_rstrip_self h1
  rw [h2, rstrip_idem]

/-! ### Lemmas about the parser and the batch driver -/

lemma parse_stripped_isSome (l : PStr) (h : pyStrip l ≠ []) :
    ∃ r, parse_apa_reference (pyStrip l) = some r := by
  unfold parse_apa_reference
  rw [pyStrip_idem]
  rw [if_neg h]
  cases hfy : findYear (pyStrip l) with
  | none => exact ⟨_, rfl⟩
  | some t =>
    obtain ⟨before, y, after⟩ := t
    exact ⟨_, rfl⟩

lemma lineEntry_eq_none_iff (line : PStr) :
    lineEntry line = none ↔ pyStrip line = [] := by
  unfold lineEntry
  by_cases h : pyStrip line = []
  · simp [h]
  · obtain ⟨r, hr⟩ := parse_stripped_isSome line h
    simp [h, hr]

lemma record_to_ris_ne_nil (r : Record) : record_to_ris r ≠ [] := by
  unfold record_to_ris
  intro h
  have := congrArg List.length h
  simp at this

lemma lineEntry_some_ne_nil {line x : PStr} (h : lineEntry line = some x) :
    x ≠ [] := by
  unfold lineEntry at h
  by_cases hs : pyStrip line = []
  · simp [hs] at h
  · obtain ⟨r, hr⟩ := parse_stripped_isSome line hs
    simp [hs, hr] at h
    exact h ▸ record_to_ris_ne_nil r

lemma rttr_eq_nil_iff (text : PStr) :
    references_text_to_ris text = [] ↔
      ∀ l ∈ splitlines text, pyStrip l = [] := by
  unfold references_text_to_ris
  rw [List.flatten_eq_nil_iff]
  constructor
  · intro h l hl
    by_contra hne
    have hn : lineEntry l ≠ none := by
      rw [ne_eq, lineEntry_eq_none_iff]
      exact hne
    obtain ⟨x, hx⟩ := Option.ne_none_iff_exists'.mp hn
    have hmem : x ∈ (splitlines text).filterMap lineEntry :=
      List.mem_filterMap.mpr ⟨l, hl, hx⟩
    exact lineEntry_some_ne_nil hx (h x hmem)
  · intro h x hx
    obtain ⟨l, hl, hfl⟩ := List.mem_filterMap.mp hx
    have hnone := (lineEntry_eq_none_iff l).mpr (h l hl)
    rw [hnone] at hfl
    exact absurd hfl (by simp)

lemma parse_no_year (line : PStr) (h1 : pyStrip line ≠ [])
    (h2 : findYear (pyStrip line) = none) :
    parse_apa_reference line =
      some { TY := some "GEN".data, AU := none, PY := none,
             TI := none, UR := none, N1 := some (pyStrip line) } := by
  unfold parse_apa_reference
  rw [if_neg h1, h2]

/-! ### Lemmas about the serializer -/

lemma mem_ite_singleton {c : Prop} [Decidable c] {x y : PStr} :
    (x ∈ (if c then [y] else [])) ↔ (c ∧ x = y) := by
  split
  · simp_all
  · simp_all

lemma pyOr_ne_nil (o : Option PStr) (d : PStr) (hd : d ≠ []) :
    pyOr o d ≠ [] := by
  cases o with
  | none => simpa [pyOr]
  | some s =>
    cases s with
    | nil => simpa [pyOr]
    | cons a t => simp [pyOr]

lemma optLine_some_ne (tag : PStr) {s : PStr} (hs : s ≠ []) :
    optLine tag (some s) = [tag ++ s] := by
  cases s with
  | nil => exact absurd rfl hs
  | cons a t => simp [optLine, pyTruthy]

lemma optLine_cases (tag : PStr) (o : Option PStr) :
    optLine tag o = [] ∨
      ∃ v, o = some v ∧ v ≠ [] ∧ optLine tag o = [tag ++ v] := by
  cases o with
  | none => exact Or.inl rfl
  | some s =>
    cases s with
    | nil => exact Or.inl rfl
    | cons a t =>
      exact Or.inr ⟨a :: t, rfl, by simp, optLine_some_ne _ (by simp)⟩

lemma mem_risLines_AU (r : Record) (v : PStr) :
    ("AU  - ".data ++ v) ∈ risLines r ↔ (r.AU = some v ∧ v ≠ []) := by
  obtain ⟨ty, au, py, ti, ur, n1⟩ := r
  cases au with
  | none => simp [risLines, optLine, pyTruthy, mem_ite_singleton]
  | some s =>
    by_cases hs : s = []
    · subst hs
      simp [risLines, optLine, pyTruthy, mem_ite_singleton]
    · simp only [risLines, optLine, pyTruthy, mem_ite_singleton]
      simp [hs]
      constructor
      · rintro rfl; exact ⟨rfl, hs⟩
      · rintro ⟨rfl, h2⟩; rfl

lemma mem_risLines_TI (r : Record) (v : PStr) :
    ("TI  - ".data ++ v) ∈ risLines r ↔ (r.TI = some v ∧ v ≠ []) := by
  obtain ⟨ty, au, py, ti, ur, n1⟩ := r
  cases ti with
  | none => simp [risLines, optLine, pyTruthy, mem_ite_singleton]
  | some s =>
    by_cases hs : s = []
    · subst hs
      simp [risLines, optLine, pyTruthy, mem_ite_singleton]
    · simp only [risLines, optLine, pyTruthy, mem_ite_singleton]
      simp [hs]
      constructor
      · rintro rfl; exact ⟨rfl, hs⟩
      · rintro ⟨rfl, h2⟩; rfl

lemma mem_risLines_PY (r : Record) (v : PStr) :
    ("PY  - ".data ++ v) ∈ risLines r ↔ (r.PY = some v ∧ v ≠ []) := by
  obtain ⟨ty, au, py, ti, ur, n1⟩ := r
  cases py with
  | none => simp [risLines, optLine, pyTruthy, mem_ite_singleton]
  | some s =>
    by_cases hs : s = []
    · subst hs
      simp [risLines, optLine, pyTruthy, mem_ite_singleton]
    · simp only [risLines, optLine, pyTruthy, mem_ite_singleton]
      simp [hs]
      constructor
      · rintro rfl; exact ⟨rfl, hs⟩
      · rintro ⟨rfl, h2⟩; rfl

lemma mem_risLines_UR (r : Record) (v : PStr) :
    ("UR  - ".data ++ v) ∈ risLines r ↔ (r.UR = some v ∧ v ≠ []) := by
  obtain ⟨ty, au, py, ti, ur, n1⟩ := r
  cases ur with
  | none => simp [risLines, optLine, pyTruthy, mem_ite_singleton]
  | some s =>
    by_cases hs : s = []
    · subst hs
      simp [risLines, optLine, pyTruthy, mem_ite_singleton]
    · simp only [risLines, optLine, pyTruthy, mem_ite_singleton]
      simp [hs]
      constructor
      · rintro rfl; exact ⟨rfl, hs⟩
      · rintro ⟨rfl, h2⟩; rfl

lemma mem_risLines_N1 (r : Record) (v : PStr) :
    ("N1  - ".data ++ v) ∈ risLines r ↔ (r.N1 = some v ∧ v ≠ []) := by
  obtain ⟨ty, au, py, ti, ur, n1⟩ := r
  cases n1 with
  | none => simp [risLines, optLine, pyTruthy, mem_ite_singleton]
  | some s =>
    by_cases hs : s = []
    · subst hs
      simp [risLines, optLine, pyTruthy, mem_ite_singleton]
    · simp only [risLines, optLine, pyTruthy, mem_ite_singleton]
      simp [hs]
      constructor
      · rintro rfl; exact ⟨rfl, hs⟩
      · rintro ⟨rfl, h2⟩; rfl

lemma TY_mem_risLines (r : Record) :
    ("TY  - ".data ++ pyOr r.TY "GEN".data) ∈ risLines r := by
  simp [risLines]

lemma TY_bare_not_mem (r : Record) : "TY  - ".data ∉ risLines r := by
  obtain ⟨ty, au, py, ti, ur, n1⟩ := r
  have hne := pyOr_ne_nil ty "GEN".data (by simp)
  simp [risLines, optLine, pyTruthy, mem_ite_singleton]
  exact fun h => hne h

/-! ### Claim theorems -/

/-- C1 counterexample: an input in which no line contains a parenthesised
4-digit year, yet references_text_to_ris returns a non-empty string (the
line yields a Generic record instead of being dropped). -/
theorem c1_no_year_nonempty_output_cex :
    (∀ l ∈ splitlines "hello".data, findYear (pyStrip l) = none) ∧
    references_text_to_ris "hello".data ≠ [] := by
  decide

/-- C1 amended: when no line contains a (YYYY) pattern, each non-blank line
still contributes a Generic record holding only the raw text, and the
overall result is the empty string exactly when every line is blank after
trimming. -/
theorem c1_no_year_output (text : PStr)
    (hno : ∀ l ∈ splitlines text, findYear (pyStrip l) = none) :
    references_text_to_ris text =
      ((splitlines text).filterMap genericEntry).flatten ∧
    (references_text_to_ris text = [] ↔
      ∀ l ∈ splitlines text, pyStrip l = []) := by
  constructor
  · unfold references_text_to_ris
    congr 1
    apply List.filterMap_congr
    intro l hl
    unfold lineEntry genericEntry
    by_cases h : pyStrip l = []
    · simp [h]
    · have hp := parse_no_year (pyStrip l) (by rw [pyStrip_idem]; exact h)
        (by rw [pyStrip_idem]; exact hno l hl)
      rw [pyStrip_idem] at hp
      simp [h, hp]
  · exact rttr_eq_nil_iff text

theorem c1_no_year_output_witness :
    references_text_to_ris "hello".data =
      ((splitlines "hello".data).filterMap genericEntry).flatten ∧
    (references_text_to_ris "hello".data = [] ↔
      ∀ l ∈ splitlines "hello".data, pyStrip l = []) :=
  c1_no_year_output "hello".data (by decide)

/-- C2 counterexample: a line whose text before the year is empty, for which
the parser still sets the authors field, namely to the one-character string
holding just a comma. -/
theorem c2_empty_authors_comma_cex :
    (findYear (pyStrip "(2020). A title.".data)).map (fun t => t.1) =
      some [] ∧
    (parse_apa_reference "(2020). A title.".data).map Record.AU =
      some (some [',']) := by
  decide

/-- C2 amended: whenever a year is found, the authors field is always
present and equals the text strictly before the year match, trimmed, with
one trailing period stripped and the result re-trimmed, and a comma
appended; when the pre-year text is empty this value is the one-character
comma string. -/
theorem c2_authors_always_present (line before y after : PStr)
    (h : findYear (pyStrip line) = some (before, y, after)) :
    (parse_apa_reference line).map Record.AU =
      some (some (authorsSpec before)) := by
  have hne : pyStrip line ≠ [] := by
    intro he
    rw [he] at h
    simp [findYear] at h
  unfold parse_apa_reference
  rw [if_neg hne, h]
  simp [authorsSpec]

theorem c2_authors_always_present_witness :
    (parse_apa_reference "Smith, J. (2020). T.".data).map Record.AU =
      some (some (authorsSpec "Smith, J. ".data)) :=
  c2_authors_always_present "Smith, J. (2020). T.".data "Smith, J. ".data
    "2020".data ". T.".data (by decide)

/-- C3: a non-empty line without a parenthesised 4-digit year parses to a
record whose type is the generic code and whose N1 field holds the trimmed
line, with authors, year, title and url all unset. -/
theorem c3_no_year_generic_record (line : PStr) (h1 : pyStrip line ≠ [])
    (h2 : findYear (pyStrip line) = none) :
    parse_apa_reference line =
      some { TY := some "GEN".data, AU := none, PY := none,
             TI := none, UR := none, N1 := some (pyStrip line) } :=
  parse_no_year line h1 h2

theorem c3_no_year_generic_record_witness :
    parse_apa_reference "No year, says https://example.com office".data =
      some { TY := some "GEN".data, AU := none, PY := none,
             TI := none, UR := none,
             N1 := some "No year, says https://example.com office".data } :=
  c3_no_year_generic_record "No year, says https://example.com office".data
    (by decide) (by decide)

/-- C4: any line containing a DOI indicator (doi.org substring or doi:
token, case-insensitive) is classified JOUR, whatever else the line
contains. -/
theorem c4_doi_is_journal (original after_year : PStr)
    (h : (containsSub "doi.org".data (pyLower original) ||
          containsSub "doi:".data (pyLower original)) = true) :
    detect_reference_type original after_year = "JOUR".data := by
  unfold detect_reference_type
  simp [h]

theorem c4_doi_is_journal_witness :
    detect_reference_type
      "UNICEF report at doi.org site [working paper]".data [] = "JOUR".data :=
  c4_doi_is_journal "UNICEF report at doi.org site [working paper]".data []
    (by decide)

/-- C5 counterexample: a line without a DOI indicator on which the
volume(issue), page pattern as worded by the spec matches, yet the
classifier does not return JOUR, because the regex in the code also
requires a word boundary before the digit run. -/
theorem c5_word_boundary_cex :
    (containsSub "doi.org".data (pyLower "a1(2), 3".data) ||
     containsSub "doi:".data (pyLower "a1(2), 3".data)) = false ∧
    volumePattern_spec "a1(2), 3".data = true ∧
    detect_reference_type "a1(2), 3".data [] ≠ "JOUR".data := by
  decide

/-- C5 amended: for every line without a DOI indicator, the classifier
returns JOUR exactly when the volume(issue), page pattern matches at a
position where the digit run is not immediately preceded by a word
character. -/
theorem c5_journal_iff_volume_regex (original after_year : PStr)
    (h : (containsSub "doi.org".data (pyLower original) ||
          containsSub "doi:".data (pyLower original)) = false) :
    (detect_reference_type original after_year = "JOUR".data ↔
      volSearch original = true) := by
  unfold detect_reference_type
  simp [h]
  cases hv : volSearch original
  · simp [hv]
    split_ifs <;> simp
  · simp [hv]

theorem c5_journal_iff_volume_regex_witness :
    (detect_reference_type "Journal, 221(10), 524".data [] = "JOUR".data ↔
      volSearch "Journal, 221(10), 524".data = true) :=
  c5_journal_iff_volume_regex "Journal, 221(10), 524".data [] (by decide)

/-- C6: with no DOI indicator and no volume pattern match, a line with an
institution keyword and a report marker is RPRT, a line with an institution
keyword and no doi substring is RPRT, and otherwise the classifier returns
ELEC. -/
theorem c6_report_rules (original after_year : PStr)
    (hdoi : (containsSub "doi.org".data (pyLower original) ||
             containsSub "doi:".data (pyLower original)) = false)
    (hvol : volSearch original = false) :
    ((instAny (pyLower original) && markerAny (pyLower original)) = true →
       detect_reference_type original after_year = "RPRT".data) ∧
    ((instAny (pyLower original) &&
       !containsSub "doi".data (pyLower original)) = true →
       detect_reference_type original after_year = "RPRT".data) ∧
    ((instAny (pyLower original) && markerAny (pyLower original)) = false ∧
     (instAny (pyLower original) &&
       !containsSub "doi".data (pyLower original)) = false →
       detect_reference_type original after_year = "ELEC".data) := by
  unfold detect_reference_type
  refine ⟨fun h1 => ?_, fun h2 => ?_, fun h3 => ?_⟩
  · simp [hdoi, hvol, h1]
  · by_cases hm : (instAny (pyLower original) && markerAny (pyLower original)) = true
    · simp [hdoi, hvol, hm]
    · simp [hdoi, hvol, hm, h2]
  · obtain ⟨h31, h32⟩ := h3
    simp [hdoi, hvol, h31, h32]

theorem c6_report_rules_witness :
    ((instAny (pyLower "Ministry brief [working paper]".data) &&
      markerAny (pyLower "Ministry brief [working paper]".data)) = true →
       detect_reference_type "Ministry brief [working paper]".data [] =
         "RPRT".data) ∧
    ((instAny (pyLower "Ministry brief [working paper]".data) &&
      !containsSub "doi".data
        (pyLower "Ministry brief [working paper]".data)) = true →
       detect_reference_type "Ministry brief [working paper]".data [] =
         "RPRT".data) ∧
    ((instAny (pyLower "Ministry brief [working paper]".data) &&
      markerAny (pyLower "Ministry brief [working paper]".data)) = false ∧
     (instAny (pyLower "Ministry brief [working paper]".data) &&
      !containsSub "doi".data
        (pyLower "Ministry brief [working paper]".data)) = false →
       detect_reference_type "Ministry brief [working paper]".data [] =
         "ELEC".data) :=
  c6_report_rules "Ministry brief [working paper]".data [] (by decide)
    (by decide)

/-- C7: in the serializer output, a tagged field line appears exactly when
the corresponding record field is present and non-empty; the TY line is
always emitted with a non-empty value, defaulting to GEN when the type is
unset or empty; and no empty-valued tag line is ever emitted. -/
theorem c7_field_presence_iff (r : Record) :
    (∃ v, ("TY  - ".data ++ v) ∈ risLines r ∧ v ≠ []) ∧
    ((r.TY = none ∨ r.TY = some []) →
      ("TY  - ".data ++ "GEN".data) ∈ risLines r) ∧
    ("TY  - ".data ∉ risLines r) ∧
    (∀ v, ("AU  - ".data ++ v) ∈ risLines r ↔ (r.AU = some v ∧ v ≠ [])) ∧
    (∀ v, ("TI  - ".data ++ v) ∈ risLines r ↔ (r.TI = some v ∧ v ≠ [])) ∧
    (∀ v, ("PY  - ".data ++ v) ∈ risLines r ↔ (r.PY = some v ∧ v ≠ [])) ∧
    (∀ v, ("UR  - ".data ++ v) ∈ risLines r ↔ (r.UR = some v ∧ v ≠ [])) ∧
    (∀ v, ("N1  - ".data ++ v) ∈ risLines r ↔ (r.N1 = some v ∧ v ≠ [])) := by
  refine ⟨⟨pyOr r.TY "GEN".data, TY_mem_risLines r,
           pyOr_ne_nil r.TY _ (by simp)⟩,
          ?_, TY_bare_not_mem r, mem_risLines_AU r, mem_risLines_TI r,
          mem_risLines_PY r, mem_risLines_UR r, mem_risLines_N1 r⟩
  intro h
  have hg : pyOr r.TY "GEN".data = "GEN".data := by
    rcases h with h | h <;> simp [pyOr, h]
  have hm := TY_mem_risLines r
  rwa [hg] at hm

/-- C8: the serializer emits its tagged lines in the fixed order TY, AU,
TI, PY, UR, N1, each formed as tag, two spaces, dash, space, value; under
the invariant that raw is set, the N1 line is always emitted; the block
ends with the ER marker line and a blank line. -/
theorem c8_fixed_order (r : Record) (h : ∃ s, r.N1 = some s ∧ s ≠ []) :
    ∃ auL tiL pyL urL s,
      r.N1 = some s ∧ s ≠ [] ∧
      (auL = [] ∨ ∃ v, r.AU = some v ∧ v ≠ [] ∧
        auL = ["AU  - ".data ++ v]) ∧
      (tiL = [] ∨ ∃ v, r.TI = some v ∧ v ≠ [] ∧
        tiL = ["TI  - ".data ++ v]) ∧
      (pyL = [] ∨ ∃ v, r.PY = some v ∧ v ≠ [] ∧
        pyL = ["PY  - ".data ++ v]) ∧
      (urL = [] ∨ ∃ v, r.UR = some v ∧ v ≠ [] ∧
        urL = ["UR  - ".data ++ v]) ∧
      risLines r = ("TY  - ".data ++ pyOr r.TY "GEN".data) ::
        (auL ++ (tiL ++ (pyL ++ (urL ++
          ["N1  - ".data ++ s, "ER  - ".data])))) ∧
      record_to_ris r =
        List.intercalate ['\n'] (risLines r) ++ ['\n', '\n'] := by
  obtain ⟨s, hn1, hs⟩ := h
  refine ⟨optLine "AU  - ".data r.AU, optLine "TI  - ".data r.TI,
          optLine "PY  - ".data r.PY, optLine "UR  - ".data r.UR, s,
          hn1, hs, optLine_cases _ _, optLine_cases _ _, optLine_cases _ _,
          optLine_cases _ _, ?_, rfl⟩
  unfold risLines
  rw [hn1, optLine_some_ne _ hs]
  simp

theorem c8_fixed_order_witness :
    ∃ auL tiL pyL urL s,
      sampleRecord.N1 = some s ∧ s ≠ [] ∧
      (auL = [] ∨ ∃ v, sampleRecord.AU = some v ∧ v ≠ [] ∧
        auL = ["AU  - ".data ++ v]) ∧
      (tiL = [] ∨ ∃ v, sampleRecord.TI = some v ∧ v ≠ [] ∧
        tiL = ["TI  - ".data ++ v]) ∧
      (pyL = [] ∨ ∃ v, sampleRecord.PY = some v ∧ v ≠ [] ∧
        pyL = ["PY  - ".data ++ v]) ∧
      (urL = [] ∨ ∃ v, sampleRecord.UR = some v ∧ v ≠ [] ∧
        urL = ["UR  - ".data ++ v]) ∧
      risLines sampleRecord =
        ("TY  - ".data ++ pyOr sampleRecord.TY "GEN".data) ::
        (auL ++ (tiL ++ (pyL ++ (urL ++
          ["N1  - ".data ++ s, "ER  - ".data])))) ∧
      record_to_ris sampleRecord =
        List.intercalate ['\n'] (risLines sampleRecord) ++ ['\n', '\n'] :=
  c8_fixed_order sampleRecord ⟨"x".data, rfl, by decide⟩

/-- C9: the converter is a total function of the input text; it maps the
empty string to the empty string, and in general returns the empty string
exactly when every input line is blank after trimming, rather than
signaling failure. -/
theorem c9_total_empty_on_no_usable_input (text : PStr) :
    references_text_to_ris [] = [] ∧
    (references_text_to_ris text = [] ↔
      ∀ l ∈ splitlines text, pyStrip l = []) :=
  ⟨rfl, rttr_eq_nil_iff text⟩

/-- C10: the classifier result depends only on the raw line; its after-year
argument never influences the output. -/
theorem c10_after_year_ignored (raw b b' : PStr) :
    detect_reference_type raw b = detect_reference_type raw b' := rfl
